import Mathlib

/-!
Verification of the workload orchestration engine of `cbt` (module
`benchmark/librbdfio.py`, class `LibrbdFio`).

The Python source is shallowly embedded: pure helpers become Lean functions,
the stateful coordinator (`run`, `run_workloads`) becomes explicit state
passing producing a list of observable events (remote dispatches, waits,
sleeps, monitoring start/stop, cluster-controller calls), and fallible code
carries an `Option PyErr` describing the Python exception that escapes.
Machine integers in the source are unbounded Python ints, so `Nat`/`Int`
are used directly.
-/

namespace Cbt

/-! ## Python primitives used by `parse` (result collection) -/

/-- Characters treated as whitespace by Python `str.strip()` (ASCII range,
which is all that fio output contains). -/
def pyIsSpace (c : Char) : Bool :=
  c = ' ' || c = '\t' || c = '\n' || c = '\r' || c = '\x0b' || c = '\x0c'

/-- A line for which `len(line.strip()) == 0` holds: every character is
whitespace. -/
def isBlank (s : String) : Bool :=
  s.data.all pyIsSpace

/-- Substring containment, the Python `needle in hay` test on strings. -/
def hasSub (needle : List Char) : List Char → Bool
  | [] => needle.isEmpty
  | c :: cs => needle.isPrefixOf (c :: cs) || hasSub needle cs

/-- Python `file.readlines()`: split after each newline, keeping the
terminator; a final piece without a newline is kept when non-empty. -/
def readlinesAux : List Char → List Char → List String
  | [], [] => []
  | [], acc => [String.mk acc.reverse]
  | c :: cs, acc =>
    if c = '\n' then String.mk (acc.reverse ++ [c]) :: readlinesAux cs []
    else readlinesAux cs (c :: acc)

/-- Python `file.readlines()` on the whole raw file contents. -/
def readlines (s : String) : List String :=
  readlinesAux s.data []

/-- The start marker tested by `parse`: `"Starting" in line`. -/
def startMarker : List Char :=
  ("Starting").data

/-- The per-file loop body of `LibrbdFio.parse` (librbdfio.py lines 424-432):
`found` starts at `0`; a blank line resets `found` and breaks out of the
loop; while `found == 1` lines are copied to the json output; a line
containing the marker switches `found` to `1` (the marker line itself is not
copied because the copy test precedes the marker test). -/
def parseLines : Nat → List String → List String
  | _, [] => []
  | found, line :: rest =>
    if isBlank line then []
    else
      let out := if found = 1 then [line] else []
      let found2 := if found = 0 && hasSub startMarker line.data then 1 else found
      out ++ parseLines found2 rest

/-- Contents of the json output file `parse` produces for one raw output
file: the copied lines, concatenated. -/
def parseFile (raw : String) : String :=
  String.join (parseLines 0 (readlines raw))

/-! ## Data model of the coordinator -/

/-- Python exceptions that can escape the embedded code paths. -/
inductive PyErr where
  | typeError
  | indexError
  | unboundLocalError
deriving Repr, DecidableEq

/-- The ten mutable global fio option fields of `LibrbdFio` that
`backup_global_fio_options` saves and `restore_global_fio_options` restores
(librbdfio.py lines 34-43, 90-119).  `ramp` and `log_avg_msec` default to
Python `None`, hence `Option`.  `rwmixread` is an `Int` because the source
computes `100 - rwmixread` on an unvalidated config value. -/
structure FioOptions where
  time_based : Bool
  ramp : Option Nat
  iodepth : Nat
  numjobs : Nat
  mode : String
  end_fsync : Nat
  rwmixread : Int
  rwmixwrite : Int
  log_avg_msec : Option Nat
  op_size : Nat
deriving Repr, DecidableEq

/-- The raw configuration keys read at lines 34-43 of `__init__`, with the
source defaults already applied by `config.get`. -/
structure InitConfig where
  time_based : Bool := false
  ramp : Option Nat := none
  iodepth : Nat := 16
  numjobs : Nat := 1
  end_fsync : Nat := 0
  mode : String := "write"
  rwmixread : Int := 50
  log_avg_msec : Option Nat := none
  op_size : Nat := 4194304
deriving Repr, DecidableEq

/-- Lines 34-43 of `__init__`: copy the configured global fio options onto
`self`, computing `rwmixwrite = 100 - rwmixread` (line 41). -/
def initOptions (c : InitConfig) : FioOptions :=
  { time_based := c.time_based
    ramp := c.ramp
    iodepth := c.iodepth
    numjobs := c.numjobs
    mode := c.mode
    end_fsync := c.end_fsync
    rwmixread := c.rwmixread
    rwmixwrite := 100 - c.rwmixread
    log_avg_msec := c.log_avg_msec
    op_size := c.op_size }

/-- One entry of the declarative `workloads` table: a string-keyed dict of
per-workload overrides.  Only the keys that `run_workloads` actually reads
are modelled; `none` means the key is absent from the dict.  For `precond`
only presence matters (`'precond' in test`). -/
structure Workload where
  mode : Option String := none
  op_size : Option Nat := none
  rwmixread : Option Int := none
  monitor : Option Bool := none
  precond : Option Bool := none
  iodepth : Option (List Nat) := none
  numjobs : Option (List Nat) := none
deriving Repr, DecidableEq

/-- Value of `test['iodepth']` / `test['numjobs']` in the merged dict
`dict(self.global_fio_options, **self.workloads[wk])`: the workload's list
when the workload supplies one, otherwise the scalar backed-up global.
Applying `len` or subscription to the scalar raises `TypeError`, as in
Python. -/
inductive NumsVal where
  | scalar (n : Nat)
  | arr (l : List Nat)
deriving Repr, DecidableEq

/-- The merged per-workload dict `test` (line 161), restricted to the keys
the loop reads.  `mode`, `op_size` and `rwmixread` are always present
because `global_fio_options` contains them; `monitor` and `precond` come
only from the workload entry. -/
structure MergedTest where
  mode : String
  op_size : Nat
  rwmixread : Int
  monitor : Option Bool
  hasPrecond : Bool
  iodepth : NumsVal
  numjobs : NumsVal
deriving Repr, DecidableEq

/-- `test = dict(self.global_fio_options, **self.workloads[wk])`:
workload keys override the backed-up globals. -/
def mergeTest (g : FioOptions) (w : Workload) : MergedTest :=
  { mode := w.mode.getD g.mode
    op_size := w.op_size.getD g.op_size
    rwmixread := w.rwmixread.getD g.rwmixread
    monitor := w.monitor
    hasPrecond := w.precond.isSome
    iodepth := match w.iodepth with
      | some l => NumsVal.arr l
      | none => NumsVal.scalar g.iodepth
    numjobs := match w.numjobs with
      | some l => NumsVal.arr l
      | none => NumsVal.scalar g.numjobs }

/-- The `LibrbdFio` instance state: the mutable global fio options, their
backup dict, and the remaining fields the embedded methods read.
`clients` models `settings.getnodes('clients')`, `recovery_test` models
`'recovery_test' in self.cluster.config`. -/
structure LibrbdFio where
  opts : FioOptions
  global_fio_options : FioOptions
  time : Option Nat
  precond_time : Option Nat
  volumes_per_client : Nat
  base_run_dir : String
  run_dir : String
  out_dir : String
  use_existing_volumes : Bool
  rbdname : String
  no_sudo : Bool
  cmd_path : String
  pool_name : String
  fio_out_format : String
  norandommap : Bool
  log_iops : Bool
  log_bw : Bool
  log_lat : Bool
  recovery_test : Bool
  recov_test_type : String
  random_distribution : Option String
  rate_iops : Option Nat
  names : String
  workloads : List (String × Workload)
  clients : String
deriving Repr, DecidableEq

/-- Lines 90-103, `backup_global_fio_options`: copy the ten global option
fields into the `global_fio_options` dict. -/
def backup_global_fio_options (s : LibrbdFio) : LibrbdFio :=
  { s with global_fio_options :=
    { time_based := s.opts.time_based
      ramp := s.opts.ramp
      iodepth := s.opts.iodepth
      numjobs := s.opts.numjobs
      mode := s.opts.mode
      end_fsync := s.opts.end_fsync
      rwmixread := s.opts.rwmixread
      rwmixwrite := s.opts.rwmixwrite
      log_avg_msec := s.opts.log_avg_msec
      op_size := s.opts.op_size } }

/-- Lines 106-119, `restore_global_fio_options`: restore the ten global
option fields from the backup dict. -/
def restore_global_fio_options (s : LibrbdFio) : LibrbdFio :=
  { s with opts :=
    { ramp := s.global_fio_options.ramp
      iodepth := s.global_fio_options.iodepth
      numjobs := s.global_fio_options.numjobs
      mode := s.global_fio_options.mode
      end_fsync := s.global_fio_options.end_fsync
      rwmixread := s.global_fio_options.rwmixread
      rwmixwrite := s.global_fio_options.rwmixwrite
      log_avg_msec := s.global_fio_options.log_avg_msec
      op_size := s.global_fio_options.op_size
      time_based := s.global_fio_options.time_based } }

/-! ## Observable events of the coordinator -/

/-- Observable actions of `run` / `run_workloads` / the recovery callbacks,
in program order.  `pdsh h nodes cmd` is one `common.pdsh` dispatch whose
returned handle is numbered `h`; `wait h` is `handle.wait()`;
`communicate h` is `handle.communicate()`.  `superRun` and `dropCaches`
stand for the `Benchmark` base-class calls whose code is outside this
module. -/
inductive Event where
  | superRun
  | dropCaches
  | makeRemoteDir (dir : String)
  | dumpConfig (dir : String)
  | sleep (secs : Nat)
  | checkAutoscaler
  | createRecoveryTest (dir : String) (mode : String)
  | waitStartIO
  | waitRecoveryDone
  | pdsh (h : Nat) (nodes : String) (cmd : String)
  | wait (h : Nat)
  | communicate (h : Nat)
  | monStart (dir : String)
  | monStop (dir : Option String)
  | dumpHistoricOps (dir : String)
  | syncFiles (src : String) (dst : String)
  | analyze (dir : String)
deriving Repr, DecidableEq

/-- Recognises a `common.pdsh` dispatch event. -/
def Event.isPdsh : Event → Bool
  | .pdsh _ _ _ => true
  | _ => false

/-- Recognises a `monitoring.stop` event. -/
def Event.isMonStop : Event → Bool
  | .monStop _ => true
  | _ => false

/-- Recognises a `handle.communicate()` event. -/
def Event.isCommunicate : Event → Bool
  | .communicate _ => true
  | _ => false

/-- Whether an event matching `p` occurs strictly before the first event
matching `q` (both must occur). -/
def occursBefore (p q : Event → Bool) (l : List Event) : Bool :=
  match l.findIdx? p, l.findIdx? q with
  | some i, some j => decide (i < j)
  | _, _ => false

/-! ## Command construction (`mkfiocmd`, lines 277-330) -/

/-- Modelled from the spec: `common.get_fqdn_cmd()` is an external helper
(outside this module) returning the shell snippet that interpolates the
executing host's fully-qualified name at dispatch time. -/
def get_fqdn_cmd : String :=
  "hostname -f"

/-- Python `'%03d' % n`: decimal, left-padded with zeros to width 3. -/
def pad3 (n : Nat) : String :=
  let s := toString n
  if s.length < 3 then String.mk (List.replicate (3 - s.length) '0') ++ s
  else s

/-- Lines 298-299: the runtime flag is appended only when `self.time` is not
`None`, but the *value* interpolated with `%d` is the `time` parameter of
`mkfiocmd`; formatting `None` with `%d` raises `TypeError`. -/
def runtimeFlag (selfTime : Option Nat) (time : Option Nat) : Except PyErr String :=
  match selfTime with
  | none => Except.ok ""
  | some _ =>
    match time with
    | none => Except.error PyErr.typeError
    | some t => Except.ok (" --runtime=" ++ toString t)

/-- The command string built by `mkfiocmd` once the runtime flag `rt` is
known, following the source line by line (lines 282-330). -/
def mkfiocmdStr (s : LibrbdFio) (volnum : Nat) (rt : String) : String :=
  let rbdname := if s.use_existing_volumes ∧ 0 < s.rbdname.length then s.rbdname
    else "cbt-librbdfio-`" ++ get_fqdn_cmd ++ "`-" ++ toString volnum
  let out_file := s.run_dir ++ "/output." ++ toString volnum
  let c0 : String := if s.no_sudo then "" else "sudo "
  let c1 := c0 ++ s.cmd_path ++ " --ioengine=rbd --clientname=admin --pool=" ++ s.pool_name
    ++ " --rbdname=" ++ rbdname ++ " --invalidate=0"
  let c2 := c1 ++ " --rw=" ++ s.opts.mode
  let c3 := c2 ++ " --output-format=" ++ s.fio_out_format
  let c4 := c3 ++ (if s.opts.mode = "readwrite" ∨ s.opts.mode = "randrw" then
    " --rwmixread=" ++ toString s.opts.rwmixread ++ " --rwmixwrite=" ++ toString s.opts.rwmixwrite
    else "")
  let c5 := c4 ++ rt
  let c6 := c5 ++ (if s.opts.time_based then " --time_based" else "")
  let c7 := c6 ++ (match s.opts.ramp with
    | some r => " --ramp_time=" ++ toString r
    | none => "")
  let c8 := c7 ++ " --numjobs=" ++ toString s.opts.numjobs
  let c9 := c8 ++ " --direct=1"
  let c10 := c9 ++ " --bs=" ++ toString s.opts.op_size ++ "B"
  let c11 := c10 ++ " --iodepth=" ++ toString s.opts.iodepth
  let c12 := c11 ++ " --end_fsync=" ++ toString s.opts.end_fsync
  let c13 := c12 ++ (if s.norandommap then " --norandommap" else "")
  let c14 := c13 ++ (if s.log_iops then " --write_iops_log=" ++ out_file else "")
  let c15 := c14 ++ (if s.log_bw then " --write_bw_log=" ++ out_file else "")
  let c16 := c15 ++ (if s.log_lat then " --write_lat_log=" ++ out_file else "")
  let c17 := c16 ++ (if s.recovery_test then " --time_based" else "")
  let c18 := c17 ++ (match s.random_distribution with
    | some d => " --random_distribution=" ++ d
    | none => "")
  let c19 := c18 ++ (match s.opts.log_avg_msec with
    | some m => " --log_avg_msec=" ++ toString m
    | none => "")
  let c20 := c19 ++ (match s.rate_iops with
    | some r2 => " --rate_iops=" ++ toString r2
    | none => "")
  c20 ++ " " ++ s.names ++ " > " ++ out_file

/-- `mkfiocmd(self, volnum, time)`: fails with `TypeError` only at the
`' --runtime=%d' % time` interpolation when `self.time` is set but the
passed runtime is `None`. -/
def mkfiocmd (s : LibrbdFio) (volnum : Nat) (time : Option Nat) : Except PyErr String :=
  match runtimeFlag s.time time with
  | Except.error e => Except.error e
  | Except.ok rt => Except.ok (mkfiocmdStr s volnum rt)

/-! ## The dispatch fan-out loop -/

/-- Result of the per-volume dispatch loop: events issued, handles of the
dispatched commands, next fresh handle id, and the escaping exception if
command construction failed mid-loop. -/
structure DispatchOut where
  events : List Event
  handles : List Nat
  next : Nat
  err : Option PyErr
deriving Repr, DecidableEq

/-- The loop `for i in range(self.volumes_per_client): fio_cmd =
self.mkfiocmd(i, fioruntime); p = common.pdsh(...); ps.append(p)`
(lines 207-210 and 259-262), iterating `rem` more volumes starting at
volume index `v` with `h` the next fresh handle id. -/
def dispatchVolsAux (s : LibrbdFio) (fioruntime : Option Nat) :
    Nat → Nat → Nat → DispatchOut
  | 0, _, h => { events := [], handles := [], next := h, err := none }
  | rem + 1, v, h =>
    match mkfiocmd s v fioruntime with
    | Except.error e => { events := [], handles := [], next := h, err := some e }
    | Except.ok cmd =>
      let d := dispatchVolsAux s fioruntime rem (v + 1) (h + 1)
      { events := Event.pdsh h s.clients cmd :: d.events
        handles := h :: d.handles
        next := d.next
        err := d.err }

/-! ## `run_workloads` (lines 154-220) -/

/-- Result of processing (a suffix of) the sweep pairs of one workload:
final state, events, the accumulated `ps` handle list, next fresh handle
id, escaping exception. -/
structure PairOut where
  state : LibrbdFio
  events : List Event
  ps : List Nat
  next : Nat
  err : Option PyErr
deriving Repr, DecidableEq

/-- The field updates of one loop iteration (lines 189-204): set `mode`,
`op_size` and `rwmixread`/`rwmixwrite` from the merged dict (those keys are
always present because the backup dict contains them), set
`numjobs`/`iodepth` from the current sweep pair, and recompute `run_dir`. -/
def pairOverlay (s : LibrbdFio) (test : MergedTest) (iod job : Nat) (wk : String) :
    LibrbdFio :=
  let o := s.opts
  let o1 : FioOptions :=
    { o with mode := test.mode
             op_size := test.op_size
             rwmixread := test.rwmixread
             rwmixwrite := 100 - test.rwmixread
             numjobs := job
             iodepth := iod }
  { s with opts := o1
           run_dir := s.base_run_dir ++ "/" ++ wk ++ "_" ++ test.mode ++ "_"
             ++ toString test.op_size ++ "/iodepth-" ++ pad3 iod
             ++ "/numjobs-" ++ pad3 job }

/-- One iteration of the sweep loop body (lines 186-218) for the pair
`(iod, job)`: overlay the fields, `make_remote_dir`, dispatch all volumes
appending to `ps`, then (when monitoring is enabled) `time.sleep(self.ramp)`
-- `TypeError` when `ramp` is `None` -- and `monitoring.start`, wait on
every handle in `ps`, `monitoring.stop`, and restore the globals. -/
def runPairBody (wk : String) (test : MergedTest) (enable : Bool)
    (fioruntime : Option Nat) (s : LibrbdFio) (ps : List Nat) (h : Nat)
    (iod job : Nat) : PairOut :=
  let s1 := pairOverlay s test iod job wk
  let d := dispatchVolsAux s1 fioruntime s1.volumes_per_client 0 h
  let ps1 := ps ++ d.handles
  match d.err with
  | some e =>
    { state := s1, events := Event.makeRemoteDir s1.run_dir :: d.events
      ps := ps1, next := d.next, err := some e }
  | none =>
    match enable, s1.opts.ramp with
    | true, none =>
      { state := s1, events := Event.makeRemoteDir s1.run_dir :: d.events
        ps := ps1, next := d.next, err := some PyErr.typeError }
    | true, some r =>
      { state := restore_global_fio_options s1
        events := Event.makeRemoteDir s1.run_dir :: d.events
          ++ Event.sleep r :: Event.monStart s1.run_dir
            :: (ps1.map Event.wait ++ [Event.monStop (some s1.run_dir)])
        ps := ps1, next := d.next, err := none }
    | false, _ =>
      { state := restore_global_fio_options s1
        events := Event.makeRemoteDir s1.run_dir :: d.events ++ ps1.map Event.wait
        ps := ps1, next := d.next, err := none }

/-- The sweep loop `for i in range(len(test['iodepth']))` (line 184),
processing the remaining iodepth entries with `i` the current index.
`test['numjobs'][i]` raises `TypeError` on a scalar and `IndexError` past
the end of the list.  Note `ps` is threaded through: it is reset only once
per workload (line 159), not per pair. -/
def runPairsAux (wk : String) (test : MergedTest) (enable : Bool)
    (fioruntime : Option Nat) :
    List Nat → Nat → LibrbdFio → List Nat → Nat → PairOut
  | [], _, s, ps, h => { state := s, events := [], ps := ps, next := h, err := none }
  | iod :: rest, i, s, ps, h =>
    match test.numjobs with
    | NumsVal.scalar _ =>
      { state := s, events := [], ps := ps, next := h, err := some PyErr.typeError }
    | NumsVal.arr lj =>
      match lj.get? i with
      | none =>
        { state := s, events := [], ps := ps, next := h, err := some PyErr.indexError }
      | some job =>
        let b := runPairBody wk test enable fioruntime s ps h iod job
        match b.err with
        | some _ => b
        | none =>
          let r2 := runPairsAux wk test enable fioruntime rest (i + 1) b.state b.ps b.next
          { state := r2.state, events := b.events ++ r2.events
            ps := r2.ps, next := r2.next, err := r2.err }

/-- Lines 162-165: `enable_monitor = True`, overridden by
`bool(test['monitor'])` when the workload provides the key. -/
def enableMonitor (test : MergedTest) : Bool :=
  match test.monitor with
  | some b => b
  | none => true

/-- Result of `run_workloads` (and of the workload phase of `run`). -/
structure WkOut where
  state : LibrbdFio
  events : List Event
  next : Nat
  err : Option PyErr
deriving Repr, DecidableEq

/-- The outer loop `for wk in self.workloads` (lines 158-218): merge the
globals with the workload overrides, compute `enable_monitor` and the
runtime, then run the sweep pairs; `len(test['iodepth'])` on a scalar
raises `TypeError`. -/
def runWorkloadsAux : List (String × Workload) → LibrbdFio → Nat → WkOut
  | [], s, h => { state := s, events := [], next := h, err := none }
  | (wk, w) :: rest, s, h =>
    let test := mergeTest s.global_fio_options w
    let enable := enableMonitor test
    let fioruntime := if test.hasPrecond then s.precond_time else s.time
    match test.iodepth with
    | NumsVal.scalar _ =>
      { state := s, events := [], next := h, err := some PyErr.typeError }
    | NumsVal.arr li =>
      let r1 := runPairsAux wk test enable fioruntime li 0 s [] h
      match r1.err with
      | some e => { state := r1.state, events := r1.events, next := r1.next, err := some e }
      | none =>
        let r2 := runWorkloadsAux rest r1.state r1.next
        { state := r2.state, events := r1.events ++ r2.events
          next := r2.next, err := r2.err }

/-- `run_workloads` (lines 154-220). -/
def run_workloads (s : LibrbdFio) : WkOut :=
  runWorkloadsAux s.workloads s 0

/-! ## Recovery callbacks (lines 403-408) -/

/-- `recovery_callback_blocking` (lines 403-404): one `common.pdsh`
dispatch of `sudo killall -2 fio` to all clients, immediately followed by
`.communicate()` on the returned handle -- the callback blocks on the
dispatch's completion before returning. -/
def recovery_callback_blocking (s : LibrbdFio) : List Event :=
  [Event.pdsh 0 s.clients "sudo killall -2 fio", Event.communicate 0]

/-- `recovery_callback_background` (lines 407-408): a pure log line, no
observable action. -/
def recovery_callback_background (_s : LibrbdFio) : List Event :=
  []

/-! ## `run` (lines 223-274) -/

/-- Result of `run`. -/
structure RunOut where
  state : LibrbdFio
  events : List Event
  err : Option PyErr
deriving Repr, DecidableEq

/-- Lines 224-238: `super().run()`, drop caches, create the run directory,
dump the cluster config, settle sleep, bounded pg-autoscaler wait (its
timeout is logged, never fatal). -/
def runPreEvents (s : LibrbdFio) : List Event :=
  [Event.superRun, Event.dropCaches, Event.makeRemoteDir s.run_dir,
   Event.dumpConfig s.run_dir, Event.sleep 5, Event.checkAutoscaler]

/-- Lines 240-245: register the recovery callback when a recovery test is
configured. -/
def runArmEvents (s : LibrbdFio) : List Event :=
  if s.recovery_test then [Event.createRecoveryTest s.run_dir s.recov_test_type] else []

/-- Lines 247-249: in background mode, block on the cluster's start-I/O
signal before dispatching any client load. -/
def runStartIOEvents (s : LibrbdFio) : List Event :=
  if s.recovery_test ∧ s.recov_test_type = "background" then [Event.waitStartIO] else []

/-- The original-style branch of `run` (lines 255-264): start monitoring,
dispatch every volume with runtime `self.time`, wait on each handle in
submission order. -/
def originalStyleWk (s : LibrbdFio) : WkOut :=
  let d := dispatchVolsAux s s.time s.volumes_per_client 0 0
  match d.err with
  | some e =>
    { state := s, events := Event.monStart s.run_dir :: d.events, next := d.next, err := some e }
  | none =>
    { state := s, events := Event.monStart s.run_dir :: (d.events ++ d.handles.map Event.wait)
      next := d.next, err := none }

/-- Lines 251-264: the workload phase of `run` -- the new-style workload
list when non-empty, the original style otherwise. -/
def runMid (s : LibrbdFio) : WkOut :=
  if 0 < s.workloads.length then run_workloads s else originalStyleWk s

/-- `run` (lines 223-274).  When `recovery_test` is configured but
`recov_test_type` is neither `blocking` nor `background`, the local
`recovery_callback` is never bound and line 245 raises
`UnboundLocalError`.  After the workload phase: `wait_recovery_done` when a
recovery test is configured (lines 266-267), then `monitoring.stop` on the
*current* `run_dir` (line 269), then historic-ops dump, file sync and
`analyze`. -/
def run (s : LibrbdFio) : RunOut :=
  if s.recovery_test ∧ ¬(s.recov_test_type = "blocking" ∨ s.recov_test_type = "background") then
    { state := s, events := runPreEvents s, err := some PyErr.unboundLocalError }
  else
    let mid := runMid s
    match mid.err with
    | some e =>
      { state := mid.state
        events := runPreEvents s ++ runArmEvents s ++ runStartIOEvents s ++ mid.events
        err := some e }
    | none =>
      { state := mid.state
        events := runPreEvents s ++ runArmEvents s ++ runStartIOEvents s ++ mid.events
          ++ (if s.recovery_test then [Event.waitRecoveryDone] else [])
          ++ [Event.monStop (some mid.state.run_dir),
              Event.dumpHistoricOps mid.state.run_dir,
              Event.syncFiles (mid.state.run_dir ++ "/*") s.out_dir,
              Event.analyze s.out_dir]
        err := none }

/-! ## Concrete states for counterexamples and witnesses -/

/-- A small concrete set of global fio options (ramp configured). -/
def baseOpts : FioOptions :=
  { time_based := false, ramp := some 1, iodepth := 16, numjobs := 1,
    mode := "write", end_fsync := 0, rwmixread := 50, rwmixwrite := 50,
    log_avg_msec := none, op_size := 4096 }

/-- A small concrete `LibrbdFio` state with one client, one volume per
client, no recovery test and no workloads. -/
def baseState : LibrbdFio :=
  { opts := baseOpts, global_fio_options := baseOpts, time := none,
    precond_time := none, volumes_per_client := 1, base_run_dir := "/b",
    run_dir := "/b/", out_dir := "/o", use_existing_volumes := false,
    rbdname := "", no_sudo := false, cmd_path := "fio",
    pool_name := "p", fio_out_format := "json", norandommap := false,
    log_iops := false, log_bw := false, log_lat := false,
    recovery_test := false, recov_test_type := "blocking",
    random_distribution := none, rate_iops := none, names := "--name=n",
    workloads := [], clients := "c1" }

/-- Workload whose `iodepth` array (length 2) is longer than its `numjobs`
array (length 1). -/
def wlMismatch : Workload :=
  { iodepth := some [4, 8], numjobs := some [1] }

/-- State with the single mismatched workload, for claim C1. -/
def sMismatch : LibrbdFio :=
  { baseState with workloads := [("wk1", wlMismatch)] }

/-- Workload sweeping two well-formed (iodepth, numjobs) pairs. -/
def wlTwoPairs : Workload :=
  { iodepth := some [4, 8], numjobs := some [1, 2] }

/-- State with one two-pair workload, for claim C2. -/
def sTwoPairs : LibrbdFio :=
  { baseState with workloads := [("wk2", wlTwoPairs)] }

/-- State with a recovery test configured and no workloads, for claim C4. -/
def sRecov : LibrbdFio :=
  { baseState with recovery_test := true }

/-- State with a background recovery test, for claim C6. -/
def sRecovBg : LibrbdFio :=
  { baseState with recovery_test := true, recov_test_type := "background" }

/-- State whose global `ramp` is the default `None`, with one monitored
two-pair workload, for claim C10. -/
def sNoRamp : LibrbdFio :=
  { baseState with opts := { baseOpts with ramp := none },
                   workloads := [("wk3", wlTwoPairs)] }

/-- Workload that overrides neither `rwmixread` nor anything else, for the
claim C7 witness. -/
def wlPlain : Workload :=
  { iodepth := some [4], numjobs := some [1] }

/-- A concrete merged test dict, for the claim C8 witness. -/
def testPlain : MergedTest :=
  mergeTest baseOpts wlPlain

end Cbt

namespace Cbt

/-! # Theorems -/

/-! ## Projection helper lemmas -/

@[simp] theorem pairOverlay_time (s : LibrbdFio) (test : MergedTest) (iod job : Nat)
    (wk : String) : (pairOverlay s test iod job wk).time = s.time := rfl

@[simp] theorem pairOverlay_volumes (s : LibrbdFio) (test : MergedTest) (iod job : Nat)
    (wk : String) :
    (pairOverlay s test iod job wk).volumes_per_client = s.volumes_per_client := rfl

@[simp] theorem pairOverlay_global (s : LibrbdFio) (test : MergedTest) (iod job : Nat)
    (wk : String) :
    (pairOverlay s test iod job wk).global_fio_options = s.global_fio_options := rfl

@[simp] theorem pairOverlay_opts_ramp (s : LibrbdFio) (test : MergedTest) (iod job : Nat)
    (wk : String) : (pairOverlay s test iod job wk).opts.ramp = s.opts.ramp := rfl

@[simp] theorem pairOverlay_clients (s : LibrbdFio) (test : MergedTest) (iod job : Nat)
    (wk : String) : (pairOverlay s test iod job wk).clients = s.clients := rfl

@[simp] theorem restore_time (s : LibrbdFio) :
    (restore_global_fio_options s).time = s.time := rfl

@[simp] theorem restore_volumes (s : LibrbdFio) :
    (restore_global_fio_options s).volumes_per_client = s.volumes_per_client := rfl

@[simp] theorem restore_global (s : LibrbdFio) :
    (restore_global_fio_options s).global_fio_options = s.global_fio_options := rfl

@[simp] theorem restore_opts_ramp (s : LibrbdFio) :
    (restore_global_fio_options s).opts.ramp = s.global_fio_options.ramp := rfl

/-! ## Dispatch loop lemmas -/

theorem runtimeFlag_self (t : Option Nat) : ∃ rt, runtimeFlag t t = Except.ok rt := by
  cases t with
  | none => exact ⟨"", rfl⟩
  | some x => exact ⟨" --runtime=" ++ toString x, rfl⟩

theorem mkfiocmd_ok (s : LibrbdFio) (t : Option Nat) (rt : String)
    (hrt : runtimeFlag s.time t = Except.ok rt) (v : Nat) :
    mkfiocmd s v t = Except.ok (mkfiocmdStr s v rt) := by
  unfold mkfiocmd
  rw [hrt]

/-- Every event emitted by the volume dispatch loop is a pdsh dispatch. -/
theorem dispatchVolsAux_all_pdsh (s : LibrbdFio) (t : Option Nat) :
    ∀ (rem v h : Nat), ∀ e ∈ (dispatchVolsAux s t rem v h).events, e.isPdsh = true := by
  intro rem
  induction rem with
  | zero => intro v h e he; simp [dispatchVolsAux] at he
  | succ n ih =>
    intro v h e he
    cases hcmd : mkfiocmd s v t with
    | error e2 => simp [dispatchVolsAux, hcmd] at he
    | ok cmd =>
      simp only [dispatchVolsAux, hcmd] at he
      rcases List.mem_cons.mp he with rfl | he2
      · rfl
      · exact ih (v + 1) (h + 1) e he2

/-- When command construction cannot fail, the dispatch loop completes:
no error, final fresh handle `h + rem`, one event per volume. -/
theorem dispatchVolsAux_ok (s : LibrbdFio) (t : Option Nat) (rt : String)
    (hrt : runtimeFlag s.time t = Except.ok rt) :
    ∀ (rem v h : Nat),
      (dispatchVolsAux s t rem v h).err = none
      ∧ (dispatchVolsAux s t rem v h).next = h + rem
      ∧ (dispatchVolsAux s t rem v h).events.length = rem := by
  intro rem
  induction rem with
  | zero => intro v h; exact ⟨rfl, rfl, rfl⟩
  | succ n ih =>
    intro v h
    obtain ⟨h1, h2, h3⟩ := ih (v + 1) (h + 1)
    refine ⟨?_, ?_, ?_⟩
    · simp only [dispatchVolsAux, mkfiocmd_ok s t rt hrt v]
      exact h1
    · simp only [dispatchVolsAux, mkfiocmd_ok s t rt hrt v]
      rw [h2]; omega
    · simp only [dispatchVolsAux, mkfiocmd_ok s t rt hrt v, List.length_cons]
      rw [h3]

/-- Handles issued by a dispatch loop starting from a positive fresh id
never include handle 0. -/
theorem dispatchVolsAux_handles_no_zero (s : LibrbdFio) (t : Option Nat) :
    ∀ (rem v h : Nat), 0 < h → (dispatchVolsAux s t rem v h).handles.count 0 = 0 := by
  intro rem
  induction rem with
  | zero => intro v h _; rfl
  | succ n ih =>
    intro v h hh
    cases hcmd : mkfiocmd s v t with
    | error e2 => simp [dispatchVolsAux, hcmd]
    | ok cmd =>
      simp only [dispatchVolsAux, hcmd]
      rw [List.count_cons, ih (v + 1) (h + 1) (by omega)]
      have hne : ((h : Nat) == 0) = false := by
        simp
        omega
      rw [hne]
      simp

/-- A non-empty dispatch loop starting from fresh id 0 issues handle 0
exactly once. -/
theorem dispatchVolsAux_handles_zero_once (s : LibrbdFio) (t : Option Nat) (rt : String)
    (hrt : runtimeFlag s.time t = Except.ok rt) :
    ∀ (rem v : Nat), 0 < rem → (dispatchVolsAux s t rem v 0).handles.count 0 = 1 := by
  intro rem
  cases rem with
  | zero => intro v h0; omega
  | succ n =>
    intro v _
    simp only [dispatchVolsAux, mkfiocmd_ok s t rt hrt v]
    rw [List.count_cons, dispatchVolsAux_handles_no_zero s t n (v + 1) 1 (by omega)]
    simp

/-- Dispatch events contain no wait events. -/
theorem dispatchVolsAux_count_wait (s : LibrbdFio) (t : Option Nat)
    (rem v h k : Nat) :
    (dispatchVolsAux s t rem v h).events.count (Event.wait k) = 0 := by
  rw [List.count_eq_zero]
  intro hmem
  have := dispatchVolsAux_all_pdsh s t rem v h _ hmem
  simp [Event.isPdsh] at this

/-- When command construction cannot fail, the dispatch loop emits exactly
one pdsh event per volume. -/
theorem dispatchVolsAux_countP_pdsh (s : LibrbdFio) (t : Option Nat) (rt : String)
    (hrt : runtimeFlag s.time t = Except.ok rt) (rem v h : Nat) :
    (dispatchVolsAux s t rem v h).events.countP Event.isPdsh = rem := by
  have hall := dispatchVolsAux_all_pdsh s t rem v h
  have hlen := (dispatchVolsAux_ok s t rt hrt rem v h).2.2
  rw [List.countP_eq_length.mpr hall, hlen]

/-- Mapped wait events carry no pdsh dispatch. -/
theorem countP_pdsh_map_wait (l : List Nat) :
    (l.map Event.wait).countP Event.isPdsh = 0 := by
  rw [List.countP_eq_zero]
  intro a ha
  rcases List.mem_map.mp ha with ⟨x, _, rfl⟩
  simp [Event.isPdsh]

/-- Counting a given wait event among mapped waits counts the handle. -/
theorem count_wait_map (l : List Nat) (k : Nat) :
    (l.map Event.wait).count (Event.wait k) = l.count k := by
  apply List.count_map_of_injective
  intro a b hab
  injection hab

/-! ## Pair body lemmas -/

/-- Explicit shape of one successful sweep-pair iteration with monitoring
enabled: make the run directory, dispatch all volumes, ramp sleep, start
monitoring, wait on the whole accumulated handle list, stop monitoring,
restore the globals. -/
theorem runPairBody_true_eq (wk : String) (test : MergedTest) (fioruntime : Option Nat)
    (s : LibrbdFio) (ps : List Nat) (h iod job : Nat) (r : Nat)
    (hd : (dispatchVolsAux (pairOverlay s test iod job wk) fioruntime
        s.volumes_per_client 0 h).err = none)
    (hramp : s.opts.ramp = some r) :
    runPairBody wk test true fioruntime s ps h iod job =
      { state := restore_global_fio_options (pairOverlay s test iod job wk)
        events := Event.makeRemoteDir (pairOverlay s test iod job wk).run_dir
          :: (dispatchVolsAux (pairOverlay s test iod job wk) fioruntime
              s.volumes_per_client 0 h).events
          ++ Event.sleep r :: Event.monStart (pairOverlay s test iod job wk).run_dir
            :: ((ps ++ (dispatchVolsAux (pairOverlay s test iod job wk) fioruntime
                s.volumes_per_client 0 h).handles).map Event.wait
              ++ [Event.monStop (some (pairOverlay s test iod job wk).run_dir)])
        ps := ps ++ (dispatchVolsAux (pairOverlay s test iod job wk) fioruntime
          s.volumes_per_client 0 h).handles
        next := (dispatchVolsAux (pairOverlay s test iod job wk) fioruntime
          s.volumes_per_client 0 h).next
        err := none } := by
  have hramp1 : (pairOverlay s test iod job wk).opts.ramp = some r := hramp
  simp only [runPairBody, pairOverlay_volumes, hd, hramp1]

/-- Explicit shape of one successful sweep-pair iteration with monitoring
disabled: no ramp sleep and no monitoring events. -/
theorem runPairBody_false_eq (wk : String) (test : MergedTest) (fioruntime : Option Nat)
    (s : LibrbdFio) (ps : List Nat) (h iod job : Nat)
    (hd : (dispatchVolsAux (pairOverlay s test iod job wk) fioruntime
        s.volumes_per_client 0 h).err = none) :
    runPairBody wk test false fioruntime s ps h iod job =
      { state := restore_global_fio_options (pairOverlay s test iod job wk)
        events := Event.makeRemoteDir (pairOverlay s test iod job wk).run_dir
          :: (dispatchVolsAux (pairOverlay s test iod job wk) fioruntime
              s.volumes_per_client 0 h).events
          ++ (ps ++ (dispatchVolsAux (pairOverlay s test iod job wk) fioruntime
            s.volumes_per_client 0 h).handles).map Event.wait
        ps := ps ++ (dispatchVolsAux (pairOverlay s test iod job wk) fioruntime
          s.volumes_per_client 0 h).handles
        next := (dispatchVolsAux (pairOverlay s test iod job wk) fioruntime
          s.volumes_per_client 0 h).next
        err := none } := by
  simp only [runPairBody, pairOverlay_volumes, hd]

/-- Combined facts about one successful sweep-pair iteration, for any
monitoring setting: no error, the next state is the restored overlay, the
handle list grows by this pair's dispatch handles, the handle counter
advances by `volumes_per_client`, the pair emits one pdsh event per volume,
and its wait events for handle 0 count exactly the occurrences of handle 0
in the accumulated handle list. -/
theorem runPairBody_step (wk : String) (test : MergedTest) (enable : Bool)
    (fioruntime : Option Nat) (s : LibrbdFio) (ps : List Nat) (h iod job : Nat)
    (rt : String)
    (hrt : runtimeFlag s.time fioruntime = Except.ok rt)
    (hramp : s.opts.ramp.isSome = true) :
    (runPairBody wk test enable fioruntime s ps h iod job).err = none
    ∧ (runPairBody wk test enable fioruntime s ps h iod job).state
        = restore_global_fio_options (pairOverlay s test iod job wk)
    ∧ (runPairBody wk test enable fioruntime s ps h iod job).ps
        = ps ++ (dispatchVolsAux (pairOverlay s test iod job wk) fioruntime
          s.volumes_per_client 0 h).handles
    ∧ (runPairBody wk test enable fioruntime s ps h iod job).next
        = h + s.volumes_per_client
    ∧ (runPairBody wk test enable fioruntime s ps h iod job).events.countP Event.isPdsh
        = s.volumes_per_client
    ∧ (runPairBody wk test enable fioruntime s ps h iod job).events.count (Event.wait 0)
        = (ps ++ (dispatchVolsAux (pairOverlay s test iod job wk) fioruntime
          s.volumes_per_client 0 h).handles).count 0 := by
  have hrt1 : runtimeFlag (pairOverlay s test iod job wk).time fioruntime = Except.ok rt := hrt
  have hd := dispatchVolsAux_ok (pairOverlay s test iod job wk) fioruntime rt hrt1
    s.volumes_per_client 0 h
  cases enable with
  | true =>
    obtain ⟨r, hr⟩ := Option.isSome_iff_exists.mp hramp
    rw [runPairBody_true_eq wk test fioruntime s ps h iod job r hd.1 hr]
    refine ⟨rfl, rfl, rfl, hd.2.1, ?_, ?_⟩
    · simp [List.countP_cons, List.countP_append, countP_pdsh_map_wait,
        dispatchVolsAux_countP_pdsh (pairOverlay s test iod job wk) fioruntime rt hrt1,
        Event.isPdsh]
    · simp [List.count_cons, List.count_append, count_wait_map,
        dispatchVolsAux_count_wait]
  | false =>
    rw [runPairBody_false_eq wk test fioruntime s ps h iod job hd.1]
    refine ⟨rfl, rfl, rfl, hd.2.1, ?_, ?_⟩
    · simp [List.countP_cons, List.countP_append, countP_pdsh_map_wait,
        dispatchVolsAux_countP_pdsh (pairOverlay s test iod job wk) fioruntime rt hrt1,
        Event.isPdsh]
    · simp [List.count_cons, List.count_append, count_wait_map,
        dispatchVolsAux_count_wait]

/-! ## Merge lemmas -/

theorem mergeTest_iodepth (g : FioOptions) (w : Workload) (li : List Nat)
    (h : w.iodepth = some li) : (mergeTest g w).iodepth = NumsVal.arr li := by
  simp [mergeTest, h]

theorem mergeTest_numjobs (g : FioOptions) (w : Workload) (lj : List Nat)
    (h : w.numjobs = some lj) : (mergeTest g w).numjobs = NumsVal.arr lj := by
  simp [mergeTest, h]

theorem mergeTest_hasPrecond (g : FioOptions) (w : Workload)
    (h : w.precond = none) : (mergeTest g w).hasPrecond = false := by
  simp [mergeTest, h]

/-! ## Sweep loop lemmas -/

/-- When the numjobs array is shorter than the remaining iodepth entries,
the sweep loop dispatches `volumes_per_client` commands for each aligned
index and then fails with `IndexError` at index `lj.length`. -/
theorem runPairsAux_short (wk : String) (test : MergedTest) (enable : Bool)
    (fioruntime : Option Nat) (lj : List Nat)
    (hnj : test.numjobs = NumsVal.arr lj) :
    ∀ (li : List Nat) (i : Nat) (s : LibrbdFio) (ps : List Nat) (h : Nat),
      (∃ rt, runtimeFlag s.time fioruntime = Except.ok rt) →
      s.opts.ramp.isSome = true →
      s.global_fio_options.ramp.isSome = true →
      i ≤ lj.length → lj.length < i + li.length →
      (runPairsAux wk test enable fioruntime li i s ps h).err = some PyErr.indexError
      ∧ (runPairsAux wk test enable fioruntime li i s ps h).events.countP Event.isPdsh
          = (lj.length - i) * s.volumes_per_client := by
  intro li
  induction li with
  | nil =>
    intro i s ps h _ _ _ hle hlt
    simp at hlt
    omega
  | cons iod rest ih =>
    intro i s ps h hrt hr1 hr2 hle hlt
    obtain ⟨rt, hrtv⟩ := hrt
    simp only [runPairsAux, hnj]
    by_cases hi : i < lj.length
    · have hjob : lj.get? i = some (lj.get ⟨i, hi⟩) := List.get?_eq_get hi
      simp only [hjob]
      obtain ⟨hbE, hbS, hbP, hbN, hbC, hbW⟩ :=
        runPairBody_step wk test enable fioruntime s ps h iod (lj.get ⟨i, hi⟩) rt hrtv hr1
      simp only [hbE]
      have hrec := ih (i + 1)
        (runPairBody wk test enable fioruntime s ps h iod (lj.get ⟨i, hi⟩)).state
        (runPairBody wk test enable fioruntime s ps h iod (lj.get ⟨i, hi⟩)).ps
        (runPairBody wk test enable fioruntime s ps h iod (lj.get ⟨i, hi⟩)).next
        (by rw [hbS]; simp; exact ⟨rt, hrtv⟩)
        (by rw [hbS]; simp [hr2])
        (by rw [hbS]; simp [hr2])
        (by omega) (by simp at hlt ⊢; omega)
      refine ⟨hrec.1, ?_⟩
      rw [List.countP_append, hbC, hrec.2]
      have hvol : (runPairBody wk test enable fioruntime s ps h iod
          (lj.get ⟨i, hi⟩)).state.volumes_per_client = s.volumes_per_client := by
        rw [hbS]; simp
      rw [hvol]
      have : lj.length - i = (lj.length - (i + 1)) + 1 := by omega
      rw [this]
      ring
    · have hieq : i = lj.length := by omega
      have hnone : lj.get? i = none := by
        rw [List.get?_eq_none]
        omega
      simp only [hnone]
      refine ⟨by trivial, ?_⟩
      simp [hieq]

/-- When every remaining index is within the numjobs array, the sweep loop
completes without error, and -- because the handle list `ps` only grows --
the wait events for handle 0 occur once per remaining pair. -/
theorem runPairsAux_waits (wk : String) (test : MergedTest) (enable : Bool)
    (fioruntime : Option Nat) (lj : List Nat)
    (hnj : test.numjobs = NumsVal.arr lj) :
    ∀ (li : List Nat) (i : Nat) (s : LibrbdFio) (ps : List Nat) (h : Nat),
      (∃ rt, runtimeFlag s.time fioruntime = Except.ok rt) →
      s.opts.ramp.isSome = true →
      s.global_fio_options.ramp.isSome = true →
      i + li.length ≤ lj.length →
      ps.count 0 = 1 → 0 < h →
      (runPairsAux wk test enable fioruntime li i s ps h).err = none
      ∧ (runPairsAux wk test enable fioruntime li i s ps h).events.count (Event.wait 0)
          = li.length := by
  intro li
  induction li with
  | nil =>
    intro i s ps h _ _ _ _ _ _
    exact ⟨rfl, rfl⟩
  | cons iod rest ih =>
    intro i s ps h hrt hr1 hr2 hle hps hh
    obtain ⟨rt, hrtv⟩ := hrt
    simp only [runPairsAux, hnj]
    have hi : i < lj.length := by simp at hle; omega
    have hjob : lj.get? i = some (lj.get ⟨i, hi⟩) := List.get?_eq_get hi
    simp only [hjob]
    obtain ⟨hbE, hbS, hbP, hbN, hbC, hbW⟩ :=
      runPairBody_step wk test enable fioruntime s ps h iod (lj.get ⟨i, hi⟩) rt hrtv hr1
    simp only [hbE]
    have hpsCount : (runPairBody wk test enable fioruntime s ps h iod
        (lj.get ⟨i, hi⟩)).ps.count 0 = 1 := by
      rw [hbP, List.count_append,
        dispatchVolsAux_handles_no_zero (pairOverlay s test iod (lj.get ⟨i, hi⟩) wk)
          fioruntime s.volumes_per_client 0 h hh, hps]
    have hrec := ih (i + 1)
      (runPairBody wk test enable fioruntime s ps h iod (lj.get ⟨i, hi⟩)).state
      (runPairBody wk test enable fioruntime s ps h iod (lj.get ⟨i, hi⟩)).ps
      (runPairBody wk test enable fioruntime s ps h iod (lj.get ⟨i, hi⟩)).next
      (by rw [hbS]; simp; exact ⟨rt, hrtv⟩)
      (by rw [hbS]; simp [hr2])
      (by rw [hbS]; simp [hr2])
      (by simp at hle ⊢; omega)
      hpsCount
      (by rw [hbN]; omega)
    refine ⟨hrec.1, ?_⟩
    rw [List.count_append, hrec.2, hbW, ← hbP, hpsCount]
    simp only [List.length_cons]
    omega

/-! ## Parse lemmas (claims C3, C9) -/

/-- When no line of the file contains the marker, the copying flag never
becomes 1 and nothing is copied. -/
theorem parseLines_no_marker :
    ∀ lines : List String,
      (∀ l ∈ lines, hasSub startMarker l.data = false) →
      parseLines 0 lines = [] := by
  intro lines
  induction lines with
  | nil => intro _; rfl
  | cons l rest ih =>
    intro hm
    by_cases hb : isBlank l
    · simp [parseLines, hb]
    · have hml := hm l (by simp)
      have hrest := ih (fun x hx => hm x (by simp [hx]))
      simp [parseLines, hb, hml, hrest]

/-- Claim C3: `parse` copies lines into the json output only after a line
containing the start marker `"Starting"` has been seen, stopping at the
first blank line thereafter: for raw input
`"preamble\nStarting fio\n{json}\n\n"` the output equals `"{json}\n"`; for
input none of whose lines contains the marker the output is empty
(non-fatal); with two marker blocks separated by blank lines only the first
block is captured. -/
theorem librbdfio_C3_parse_marker_extraction :
    parseFile ("preamble\nStarting fio\n\x7bjson\x7d\n\n") = "\x7bjson\x7d\n"
    ∧ (∀ raw : String,
        (∀ l ∈ readlines raw, hasSub startMarker l.data = false) →
        parseFile raw = "")
    ∧ parseFile ("preamble\nStarting fio\nP\n\nStarting again\nQ\n\n") = "P\n" := by
  refine ⟨rfl, ?_, rfl⟩
  intro raw hm
  unfold parseFile
  rw [parseLines_no_marker (readlines raw) hm]
  rfl

/-- Witness for claim C3: the no-marker case evaluated at a concrete raw
file. -/
theorem librbdfio_C3_parse_marker_extraction_witness :
    parseFile ("line one\nline two\n") = "" :=
  librbdfio_C3_parse_marker_extraction.2.1 ("line one\nline two\n") (by decide)

/-- Claim C9: a blank (whitespace-only) line occurring before the first
marker line makes `parse` stop scanning at that blank line, producing an
empty json output even when a marker and payload follow later in the same
file. -/
theorem librbdfio_C9_blank_before_marker :
    (∀ (pre : List String) (b : String) (rest : List String),
      isBlank b = true →
      (∀ l ∈ pre, isBlank l = false ∧ hasSub startMarker l.data = false) →
      parseLines 0 (pre ++ b :: rest) = [])
    ∧ parseFile ("preamble\n \nStarting fio\n\x7bdata\x7d\n\n") = "" := by
  refine ⟨?_, rfl⟩
  intro pre
  induction pre with
  | nil =>
    intro b rest hb _
    simp [parseLines, hb]
  | cons l pre2 ih =>
    intro b rest hb hpre
    have hl := hpre l (by simp)
    have hrest := ih b rest hb (fun x hx => hpre x (by simp [hx]))
    simp [parseLines, hl.1, hl.2, hrest]

/-- Witness for claim C9: a blank line before the marker, with a marker and
payload after it, yields no copied lines. -/
theorem librbdfio_C9_blank_before_marker_witness :
    parseLines 0 (["preamble\n"] ++ " \n" :: ["Starting fio\n", "payload\n"]) = [] :=
  librbdfio_C9_blank_before_marker.1 (["preamble\n"]) (" \n")
    (["Starting fio\n", "payload\n"]) (by decide) (by decide)

/-! ## Claim C5: the blocking recovery callback -/

/-- Counterexample for claim C5: the claim states the blocking recovery
callback is fire-and-forget, awaiting no completion of the remote signal
dispatch; in the code the callback calls `.communicate()` on the pdsh
handle, so its trace is not free of blocking communicate events. -/
theorem librbdfio_C5_counterexample :
    ((recovery_callback_blocking baseState).all fun e => !e.isCommunicate) = false := by
  decide

/-- Claim C5 amended: the blocking recovery callback issues exactly one
remote dispatch, `sudo killall -2 fio` to all clients, and then blocks on
that dispatch's completion (`.communicate()`) as its final action before
returning -- it is not fire-and-forget. -/
theorem librbdfio_C5_blocking_callback_communicates (s : LibrbdFio) :
    (recovery_callback_blocking s).countP Event.isPdsh = 1
    ∧ Event.pdsh 0 s.clients ("sudo killall -2 fio") ∈ recovery_callback_blocking s
    ∧ (recovery_callback_blocking s).getLast? = some (Event.communicate 0) := by
  refine ⟨rfl, ?_, rfl⟩
  simp [recovery_callback_blocking]

/-! ## Claim C7: read mix and write mix sum to 100 -/

/-- Claim C7: at configuration load `rwmixwrite` is set to `100 -
rwmixread`; in `run_workloads` the per-pair overlay always recomputes
`rwmixwrite` as `100` minus the (possibly overridden) `rwmixread`, so read
mix plus write mix is 100 for every generated run; and when the workload
does not override `rwmixread`, the overlay leaves `rwmixwrite` at its
previously computed value. -/
theorem librbdfio_C7_rwmix_sum :
    (∀ c : InitConfig, (initOptions c).rwmixwrite = 100 - (initOptions c).rwmixread)
    ∧ (∀ (s : LibrbdFio) (test : MergedTest) (iod job : Nat) (wk : String),
        (pairOverlay s test iod job wk).opts.rwmixread
          + (pairOverlay s test iod job wk).opts.rwmixwrite = 100)
    ∧ (∀ (s : LibrbdFio) (w : Workload) (iod job : Nat) (wk : String),
        w.rwmixread = none →
        s.global_fio_options.rwmixwrite = 100 - s.global_fio_options.rwmixread →
        s.opts.rwmixwrite = s.global_fio_options.rwmixwrite →
        (pairOverlay s (mergeTest s.global_fio_options w) iod job wk).opts.rwmixwrite
          = s.opts.rwmixwrite) := by
  refine ⟨fun c => rfl, ?_, ?_⟩
  · intro s test iod job wk
    simp [pairOverlay]
  · intro s w iod job wk h1 h2 h3
    simp [pairOverlay, mergeTest, h1]
    omega

/-- Witness for claim C7: the retained-write-mix case evaluated at the
concrete base state and a workload with no `rwmixread` override. -/
theorem librbdfio_C7_rwmix_sum_witness :
    (pairOverlay baseState (mergeTest baseState.global_fio_options wlPlain) 4 1
      ("w")).opts.rwmixwrite = baseState.opts.rwmixwrite :=
  librbdfio_C7_rwmix_sum.2.2 baseState wlPlain 4 1 ("w") rfl (by decide) (by decide)

/-! ## Claim C8: backup / overlay / restore is the identity -/

/-- Claim C8: restoring after any per-pair overlay of a backed-up state
returns every one of the ten mutable global fio option fields (ramp,
iodepth, numjobs, mode, end_fsync, rwmixread, rwmixwrite, log_avg_msec,
op_size, time_based) to its pre-overlay value, and the state handed to the
next sweep iteration by a successful pair body is exactly the restored
state. -/
theorem librbdfio_C8_restore_identity :
    (∀ (s : LibrbdFio) (test : MergedTest) (iod job : Nat) (wk : String),
      (restore_global_fio_options (pairOverlay (backup_global_fio_options s) test iod job wk)).opts.ramp = s.opts.ramp
      ∧ (restore_global_fio_options (pairOverlay (backup_global_fio_options s) test iod job wk)).opts.iodepth = s.opts.iodepth
      ∧ (restore_global_fio_options (pairOverlay (backup_global_fio_options s) test iod job wk)).opts.numjobs = s.opts.numjobs
      ∧ (restore_global_fio_options (pairOverlay (backup_global_fio_options s) test iod job wk)).opts.mode = s.opts.mode
      ∧ (restore_global_fio_options (pairOverlay (backup_global_fio_options s) test iod job wk)).opts.end_fsync = s.opts.end_fsync
      ∧ (restore_global_fio_options (pairOverlay (backup_global_fio_options s) test iod job wk)).opts.rwmixread = s.opts.rwmixread
      ∧ (restore_global_fio_options (pairOverlay (backup_global_fio_options s) test iod job wk)).opts.rwmixwrite = s.opts.rwmixwrite
      ∧ (restore_global_fio_options (pairOverlay (backup_global_fio_options s) test iod job wk)).opts.log_avg_msec = s.opts.log_avg_msec
      ∧ (restore_global_fio_options (pairOverlay (backup_global_fio_options s) test iod job wk)).opts.op_size = s.opts.op_size
      ∧ (restore_global_fio_options (pairOverlay (backup_global_fio_options s) test iod job wk)).opts.time_based = s.opts.time_based)
    ∧ (∀ (wk : String) (test : MergedTest) (enable : Bool) (fioruntime : Option Nat)
        (s : LibrbdFio) (ps : List Nat) (h iod job : Nat),
        (runPairBody wk test enable fioruntime s ps h iod job).err = none →
        (runPairBody wk test enable fioruntime s ps h iod job).state
          = restore_global_fio_options (pairOverlay s test iod job wk)) := by
  constructor
  · intro s test iod job wk
    exact ⟨rfl, rfl, rfl, rfl, rfl, rfl, rfl, rfl, rfl, rfl⟩
  · intro wk test enable fioruntime s ps h iod job herr
    simp only [runPairBody] at herr ⊢
    cases hd : (dispatchVolsAux (pairOverlay s test iod job wk) fioruntime
        (pairOverlay s test iod job wk).volumes_per_client 0 h).err with
    | some e => rw [hd] at herr; simp at herr
    | none =>
      rw [hd] at herr
      cases enable with
      | false => rfl
      | true =>
        cases hr : (pairOverlay s test iod job wk).opts.ramp with
        | none => rw [hr] at herr; simp at herr
        | some r => rfl

/-- Witness for claim C8: the pair-body conjunct evaluated at the concrete
base state. -/
theorem librbdfio_C8_restore_identity_witness :
    (runPairBody ("w") testPlain true none baseState [] 0 4 1).state
      = restore_global_fio_options (pairOverlay baseState testPlain 4 1 ("w")) :=
  librbdfio_C8_restore_identity.2 ("w") testPlain true none baseState [] 0 4 1 (by decide)

/-! ## Claim C1: no ConfigError length validation -/

/-- Counterexample for claim C1: the claim states that a workload whose
iodepth and numjobs arrays differ in length makes `run_workloads` fail with
`ConfigError` before any dispatch.  On the concrete mismatched table
(`iodepth [4, 8]`, `numjobs [1]`) the code performs a pdsh dispatch for the
first pair and then dies with `IndexError`; no `ConfigError` exists in the
module at all. -/
theorem librbdfio_C1_counterexample :
    (run_workloads sMismatch).err = some PyErr.indexError
    ∧ 0 < (run_workloads sMismatch).events.countP Event.isPdsh := by
  constructor
  · decide
  · decide

/-- Claim C1 amended: `run_workloads` performs no length validation and
raises no `ConfigError`; for a single-workload table whose numjobs array is
shorter than its iodepth array it dispatches `volumes_per_client` remote
commands for each of the `len(numjobs)` aligned pairs and only then fails,
with `IndexError`, at the first missing index -- dispatches do occur before
the failure. -/
theorem librbdfio_C1_no_length_validation
    (s : LibrbdFio) (wk : String) (w : Workload) (li lj : List Nat)
    (hw : s.workloads = [(wk, w)])
    (hio : w.iodepth = some li) (hnj : w.numjobs = some lj)
    (hpre : w.precond = none)
    (hr1 : s.opts.ramp.isSome = true)
    (hr2 : s.global_fio_options.ramp.isSome = true)
    (hlen : lj.length < li.length) :
    (run_workloads s).err = some PyErr.indexError
    ∧ (run_workloads s).events.countP Event.isPdsh
        = lj.length * s.volumes_per_client := by
  unfold run_workloads
  rw [hw]
  simp only [runWorkloadsAux, mergeTest_iodepth s.global_fio_options w li hio,
    mergeTest_hasPrecond s.global_fio_options w hpre, Bool.false_eq_true, if_false]
  have hres := runPairsAux_short wk (mergeTest s.global_fio_options w)
    (enableMonitor (mergeTest s.global_fio_options w)) s.time lj
    (mergeTest_numjobs s.global_fio_options w lj hnj) li 0 s [] 0
    (runtimeFlag_self s.time) hr1 hr2 (by omega) (by omega)
  simp only [hres.1]
  refine ⟨by trivial, ?_⟩
  rw [hres.2]
  simp

/-- Witness for the amended claim C1 at the concrete mismatched table. -/
theorem librbdfio_C1_no_length_validation_witness :
    (run_workloads sMismatch).err = some PyErr.indexError
    ∧ (run_workloads sMismatch).events.countP Event.isPdsh
        = 1 * sMismatch.volumes_per_client :=
  librbdfio_C1_no_length_validation sMismatch ("wk1") wlMismatch [4, 8] [1]
    rfl rfl rfl rfl (by decide) (by decide) (by decide)

/-! ## Claim C2: handles are re-waited across sweep pairs -/

/-- Counterexample for claim C2: the claim states that no dispatch handle is
waited on more than once across the pairs of a workload; on the concrete
two-pair workload the handle of the first pair's dispatch is waited twice
(once in each pair's wait phase), because `ps` is reset per workload rather
than per pair (line 159). -/
theorem librbdfio_C2_counterexample :
    (run_workloads sTwoPairs).err = none
    ∧ (run_workloads sTwoPairs).events.count (Event.wait 0) = 2 := by
  constructor
  · decide
  · decide

/-- Claim C2 amended: within one workload the handle list accumulates
across sweep pairs and every pair's wait phase waits on all handles
dispatched so far in that workload, so the handle dispatched first is
waited once per pair -- `n` times for `n` pairs -- rather than exactly
once; the list resets only at workload boundaries. -/
theorem librbdfio_C2_handles_rewaited
    (s : LibrbdFio) (wk : String) (w : Workload) (li lj : List Nat)
    (hw : s.workloads = [(wk, w)])
    (hio : w.iodepth = some li) (hnj : w.numjobs = some lj)
    (hpre : w.precond = none)
    (hr1 : s.opts.ramp.isSome = true)
    (hr2 : s.global_fio_options.ramp.isSome = true)
    (hlen : li.length ≤ lj.length)
    (hvol : 0 < s.volumes_per_client) :
    (run_workloads s).err = none
    ∧ (run_workloads s).events.count (Event.wait 0) = li.length := by
  unfold run_workloads
  rw [hw]
  cases li with
  | nil =>
    simp only [runWorkloadsAux, mergeTest_iodepth s.global_fio_options w [] hio]
    exact ⟨rfl, rfl⟩
  | cons iod rest =>
    cases lj with
    | nil => simp at hlen
    | cons j0 lj2 =>
      obtain ⟨rt, hrtv⟩ := runtimeFlag_self s.time
      simp only [runWorkloadsAux, mergeTest_iodepth s.global_fio_options w _ hio,
        mergeTest_hasPrecond s.global_fio_options w hpre, Bool.false_eq_true, if_false,
        runPairsAux, mergeTest_numjobs s.global_fio_options w _ hnj, List.get?_cons_zero]
      obtain ⟨hbE, hbS, hbP, hbN, hbC, hbW⟩ :=
        runPairBody_step wk (mergeTest s.global_fio_options w)
          (enableMonitor (mergeTest s.global_fio_options w)) s.time s [] 0 iod j0 rt hrtv hr1
      simp only [hbE]
      have hb0 : (runPairBody wk (mergeTest s.global_fio_options w)
          (enableMonitor (mergeTest s.global_fio_options w)) s.time s [] 0 iod j0).ps.count 0
            = 1 := by
        rw [hbP, List.nil_append]
        exact dispatchVolsAux_handles_zero_once
          (pairOverlay s (mergeTest s.global_fio_options w) iod j0 wk) s.time rt hrtv
          s.volumes_per_client 0 hvol
      have hwaits := runPairsAux_waits wk (mergeTest s.global_fio_options w)
        (enableMonitor (mergeTest s.global_fio_options w)) s.time (j0 :: lj2)
        (mergeTest_numjobs s.global_fio_options w _ hnj) rest 1
        (runPairBody wk (mergeTest s.global_fio_options w)
          (enableMonitor (mergeTest s.global_fio_options w)) s.time s [] 0 iod j0).state
        (runPairBody wk (mergeTest s.global_fio_options w)
          (enableMonitor (mergeTest s.global_fio_options w)) s.time s [] 0 iod j0).ps
        (runPairBody wk (mergeTest s.global_fio_options w)
          (enableMonitor (mergeTest s.global_fio_options w)) s.time s [] 0 iod j0).next
        (by rw [hbS]; simp; exact ⟨rt, hrtv⟩)
        (by rw [hbS]; simp [hr2])
        (by rw [hbS]; simp [hr2])
        (by simp at hlen ⊢; omega)
        hb0
        (by rw [hbN]; omega)
      simp only [hwaits.1]
      refine ⟨by trivial, ?_⟩
      simp only [List.append_nil, List.count_append, hwaits.2, hbW, ← hbP, hb0,
        List.length_cons]
      omega

/-! ## Claim C10 helpers -/

theorem enableMonitor_none (g : FioOptions) (w : Workload) (h : w.monitor = none) :
    enableMonitor (mergeTest g w) = true := by
  simp [enableMonitor, mergeTest, h]

theorem exists_sleep_decomp (r : Nat) (rd : String) (a : Event) (d t u : List Event) :
    ∃ pre post rd2, (a :: (d ++ Event.sleep r :: Event.monStart rd :: t)) ++ u
      = pre ++ Event.sleep r :: Event.monStart rd2 :: post :=
  ⟨a :: d, t ++ u, rd, by simp⟩

theorem exists_sleep_decomp2 (r : Nat) (rd : String) (a : Event) (d t u v : List Event) :
    ∃ pre post rd2, ((a :: (d ++ Event.sleep r :: Event.monStart rd :: t)) ++ u) ++ v
      = pre ++ Event.sleep r :: Event.monStart rd2 :: post :=
  ⟨a :: d, t ++ (u ++ v), rd, by simp⟩

/-- Shape of a sweep-pair iteration with monitoring enabled and `ramp`
`None`: the dispatches happen, then `time.sleep(None)` raises `TypeError`
before `monitoring.start` is ever called. -/
theorem runPairBody_true_none_eq (wk : String) (test : MergedTest)
    (fioruntime : Option Nat) (s : LibrbdFio) (ps : List Nat) (h iod job : Nat)
    (hd : (dispatchVolsAux (pairOverlay s test iod job wk) fioruntime
        s.volumes_per_client 0 h).err = none)
    (hramp : s.opts.ramp = none) :
    runPairBody wk test true fioruntime s ps h iod job =
      { state := pairOverlay s test iod job wk
        events := Event.makeRemoteDir (pairOverlay s test iod job wk).run_dir
          :: (dispatchVolsAux (pairOverlay s test iod job wk) fioruntime
              s.volumes_per_client 0 h).events
        ps := ps ++ (dispatchVolsAux (pairOverlay s test iod job wk) fioruntime
          s.volumes_per_client 0 h).handles
        next := (dispatchVolsAux (pairOverlay s test iod job wk) fioruntime
          s.volumes_per_client 0 h).next
        err := some PyErr.typeError } := by
  have hramp1 : (pairOverlay s test iod job wk).opts.ramp = none := hramp
  simp only [runPairBody, pairOverlay_volumes, hd, hramp1]

/-- Witness for the amended claim C2 at the concrete two-pair workload. -/
theorem librbdfio_C2_handles_rewaited_witness :
    (run_workloads sTwoPairs).err = none
    ∧ (run_workloads sTwoPairs).events.count (Event.wait 0) = 2 :=
  librbdfio_C2_handles_rewaited sTwoPairs ("wk2") wlTwoPairs [4, 8] [1, 2]
    rfl rfl rfl rfl (by decide) (by decide) (by decide) (by decide)

/-! ## Claim C10: ramp is an undeclared precondition of monitored workloads -/

/-- Claim C10: when per-run monitoring is enabled for a swept workload (the
default when the workload sets no `monitor` key), `run_workloads` performs
the ramp sleep unconditionally with the current ramp value: with a
configured ramp `r` the first pair's trace contains `sleep r` immediately
followed by `monitoring.start`; with the default ramp `None` the
`time.sleep(self.ramp)` call faults with `TypeError` -- after the pair's
dispatches but before monitoring ever starts, so no `monStart` event occurs
anywhere in the trace. -/
theorem librbdfio_C10_ramp_precondition :
    (∀ (s : LibrbdFio) (wk : String) (w : Workload) (rest0 : List (String × Workload))
      (iod job : Nat) (li2 lj2 : List Nat),
      s.workloads = (wk, w) :: rest0 →
      w.monitor = none → w.precond = none →
      w.iodepth = some (iod :: li2) → w.numjobs = some (job :: lj2) →
      s.opts.ramp = none →
      (run_workloads s).err = some PyErr.typeError
      ∧ ∀ d, Event.monStart d ∉ (run_workloads s).events)
    ∧ (∀ (s : LibrbdFio) (wk : String) (w : Workload) (rest0 : List (String × Workload))
      (iod job : Nat) (li2 lj2 : List Nat) (r : Nat),
      s.workloads = (wk, w) :: rest0 →
      w.monitor = none → w.precond = none →
      w.iodepth = some (iod :: li2) → w.numjobs = some (job :: lj2) →
      s.opts.ramp = some r →
      ∃ pre post rd, (run_workloads s).events
        = pre ++ Event.sleep r :: Event.monStart rd :: post) := by
  constructor
  · intro s wk w rest0 iod job li2 lj2 hw hmon hpre hio hnj hramp
    obtain ⟨rt, hrtv⟩ := runtimeFlag_self s.time
    unfold run_workloads
    rw [hw]
    simp only [runWorkloadsAux, mergeTest_iodepth s.global_fio_options w _ hio,
      mergeTest_hasPrecond s.global_fio_options w hpre, Bool.false_eq_true, if_false,
      runPairsAux, mergeTest_numjobs s.global_fio_options w _ hnj, List.get?_cons_zero,
      enableMonitor_none s.global_fio_options w hmon]
    have hd := (dispatchVolsAux_ok (pairOverlay s (mergeTest s.global_fio_options w)
      iod job wk) s.time rt hrtv s.volumes_per_client 0 0).1
    rw [runPairBody_true_none_eq wk (mergeTest s.global_fio_options w) s.time s [] 0
      iod job hd hramp]
    refine ⟨rfl, ?_⟩
    intro d hmem
    rcases List.mem_cons.mp hmem with heq | hmem2
    · simp at heq
    · have := dispatchVolsAux_all_pdsh (pairOverlay s (mergeTest s.global_fio_options w)
        iod job wk) s.time s.volumes_per_client 0 0 _ hmem2
      simp [Event.isPdsh] at this
  · intro s wk w rest0 iod job li2 lj2 r hw hmon hpre hio hnj hramp
    obtain ⟨rt, hrtv⟩ := runtimeFlag_self s.time
    unfold run_workloads
    rw [hw]
    simp only [runWorkloadsAux, mergeTest_iodepth s.global_fio_options w _ hio,
      mergeTest_hasPrecond s.global_fio_options w hpre, Bool.false_eq_true, if_false,
      runPairsAux, mergeTest_numjobs s.global_fio_options w _ hnj, List.get?_cons_zero,
      enableMonitor_none s.global_fio_options w hmon]
    have hd := (dispatchVolsAux_ok (pairOverlay s (mergeTest s.global_fio_options w)
      iod job wk) s.time rt hrtv s.volumes_per_client 0 0).1
    rw [runPairBody_true_eq wk (mergeTest s.global_fio_options w) s.time s [] 0
      iod job r hd hramp]
    cases hre : (runPairsAux wk (mergeTest s.global_fio_options w) true s.time li2 (0 + 1)
        (restore_global_fio_options (pairOverlay s (mergeTest s.global_fio_options w)
          iod job wk))
        ([] ++ (dispatchVolsAux (pairOverlay s (mergeTest s.global_fio_options w)
          iod job wk) s.time s.volumes_per_client 0 0).handles)
        ((dispatchVolsAux (pairOverlay s (mergeTest s.global_fio_options w)
          iod job wk) s.time s.volumes_per_client 0 0).next)).err with
    | some e =>
      simp only [hre]
      apply exists_sleep_decomp
    | none =>
      simp only [hre]
      apply exists_sleep_decomp2

/-! ## Claims C4 and C6: run-level ordering -/

/-- Decomposition of the run prefix up to `wait_start_io`, with no pdsh
dispatch before it. -/
theorem exists_waitio_decomp (s : LibrbdFio) (mode : String) (l : List Event) :
    ∃ pre post,
      (Event.superRun :: Event.dropCaches :: Event.makeRemoteDir s.run_dir
        :: Event.dumpConfig s.run_dir :: Event.sleep 5 :: Event.checkAutoscaler
        :: Event.createRecoveryTest s.run_dir mode
        :: Event.waitStartIO :: l)
      = pre ++ Event.waitStartIO :: post ∧ ∀ e ∈ pre, e.isPdsh = false := by
  refine ⟨[Event.superRun, Event.dropCaches, Event.makeRemoteDir s.run_dir,
    Event.dumpConfig s.run_dir, Event.sleep 5, Event.checkAutoscaler,
    Event.createRecoveryTest s.run_dir mode], l, rfl, ?_⟩
  intro e he
  simp only [List.mem_cons, List.not_mem_nil, or_false] at he
  rcases he with rfl | rfl | rfl | rfl | rfl | rfl | rfl <;> rfl

/-- Counterexample for claim C4: the claim states that at the end of the
top-level run the monitoring stop precedes the recovery-done wait; on the
concrete recovery-test state the first monitoring stop of the run trace
comes strictly after `wait_recovery_done`, not before (lines 266-269 wait
first and stop after). -/
theorem librbdfio_C4_counterexample :
    occursBefore Event.isMonStop (fun e => e == Event.waitRecoveryDone)
      (run sRecov).events = false
    ∧ occursBefore (fun e => e == Event.waitRecoveryDone) Event.isMonStop
      (run sRecov).events = true := by
  constructor
  · decide
  · decide

/-- Claim C4 amended: at the end of the top-level run, when a recovery test
is configured, the coordinator first blocks until the cluster reports the
disruption finished and only then stops monitoring: the recovery-done wait
immediately precedes the final monitoring stop, which is followed only by
the historic-ops dump, the file sync and the analyze step. -/
theorem librbdfio_C4_recovery_wait_precedes_stop (s : LibrbdFio)
    (hrec : s.recovery_test = true)
    (herr : (run s).err = none) :
    ∃ pre, (run s).events
      = pre ++ [Event.waitRecoveryDone,
          Event.monStop (some (run s).state.run_dir),
          Event.dumpHistoricOps (run s).state.run_dir,
          Event.syncFiles ((run s).state.run_dir ++ "/*") s.out_dir,
          Event.analyze s.out_dir] := by
  unfold run at herr ⊢
  by_cases hc : s.recovery_test
    ∧ ¬(s.recov_test_type = "blocking" ∨ s.recov_test_type = "background")
  · rw [if_pos hc] at herr
    simp at herr
  · rw [if_neg hc] at herr ⊢
    cases hm : (runMid s).err with
    | some e =>
      simp only [hm] at herr
      simp at herr
    | none =>
      simp only [hm] at herr ⊢
      simp only [hrec, if_true]
      exact ⟨runPreEvents s ++ runArmEvents s ++ runStartIOEvents s ++ (runMid s).events,
        by simp [List.append_assoc]⟩

/-- Witness for the amended claim C4 at the concrete recovery-test state. -/
theorem librbdfio_C4_recovery_wait_precedes_stop_witness :
    ∃ pre, (run sRecov).events
      = pre ++ [Event.waitRecoveryDone,
          Event.monStop (some (run sRecov).state.run_dir),
          Event.dumpHistoricOps (run sRecov).state.run_dir,
          Event.syncFiles ((run sRecov).state.run_dir ++ "/*") sRecov.out_dir,
          Event.analyze sRecov.out_dir] :=
  librbdfio_C4_recovery_wait_precedes_stop sRecov rfl (by decide)

/-- Claim C6: with a background recovery test configured, `run` blocks on
the cluster's start-I/O signal before any pdsh dispatch: the trace contains
`waitStartIO`, and no event before it is a pdsh dispatch -- so if
`wait_start_io` never returned, zero dispatches would be observed. -/
theorem librbdfio_C6_no_dispatch_before_start_io (s : LibrbdFio)
    (hrec : s.recovery_test = true)
    (hbg : s.recov_test_type = "background") :
    ∃ pre post, (run s).events = pre ++ Event.waitStartIO :: post
      ∧ ∀ e ∈ pre, e.isPdsh = false := by
  unfold run
  have hc : ¬(s.recovery_test
      ∧ ¬(s.recov_test_type = "blocking" ∨ s.recov_test_type = "background")) := by
    simp [hbg]
  rw [if_neg hc]
  cases hm : (runMid s).err with
  | some e =>
    simp only [hm]
    simp only [runPreEvents, runArmEvents, runStartIOEvents, hrec, hbg, and_self,
      if_true, List.append_assoc, List.cons_append, List.nil_append]
    exact exists_waitio_decomp s ("background") (runMid s).events
  | none =>
    simp only [hm]
    simp only [runPreEvents, runArmEvents, runStartIOEvents, hrec, hbg, and_self,
      if_true, List.append_assoc, List.cons_append, List.nil_append]
    exact exists_waitio_decomp s ("background") _

/-- Witness for claim C6 at the concrete background-recovery state. -/
theorem librbdfio_C6_no_dispatch_before_start_io_witness :
    ∃ pre post, (run sRecovBg).events = pre ++ Event.waitStartIO :: post
      ∧ ∀ e ∈ pre, e.isPdsh = false :=
  librbdfio_C6_no_dispatch_before_start_io sRecovBg rfl rfl

/-- Witness for claim C10: the faulting conjunct evaluated at the concrete
no-ramp state. -/
theorem librbdfio_C10_ramp_precondition_witness :
    (run_workloads sNoRamp).err = some PyErr.typeError
    ∧ Event.monStart ("x") ∉ (run_workloads sNoRamp).events :=
  ⟨(librbdfio_C10_ramp_precondition.1 sNoRamp ("wk3") wlTwoPairs [] 4 1 [8] [2]
      rfl rfl rfl rfl rfl rfl).1,
   (librbdfio_C10_ramp_precondition.1 sNoRamp ("wk3") wlTwoPairs [] 4 1 [8] [2]
      rfl rfl rfl rfl rfl rfl).2 ("x")⟩

end Cbt
